import Mathlib

/-!
Shallow embedding of the demo-catalog client logic
(`src/components/UserInterface.tsx` and the admin component): the
collection synchronizer's record validation, the relationship enricher,
the view projector (`getFilteredDemos`), the filter-state mutators
(`handleFilterTagToggle`, `clearAllFilters`), the tag allocator
(`getNextAvailableColor`, `handleAddTag`), the demo cascade delete
(`deleteDemo`) and the admin form submit (`handleSubmit`).

JavaScript string primitives used by the source (`toLowerCase`, `trim`,
`includes`) are embedded as executable functions on the underlying
character lists. JavaScript truthiness of a nullable string field
(`null`/`undefined`/`""` are falsy) is embedded as `truthy` on
`Option String`.
-/

/-- JS `String.prototype.toLowerCase` (ASCII-adequate for this catalog). -/
def jsToLower (s : String) : String := ⟨s.data.map Char.toLower⟩

/-- Whether `pat` is a prefix of the second list (helper for `includes`). -/
def startsWithChars : List Char → List Char → Bool
  | [], _ => true
  | _ :: _, [] => false
  | p :: ps, c :: cs => p == c && startsWithChars ps cs

/-- Whether `pat` occurs contiguously somewhere in the second list. -/
def infixOfChars (pat : List Char) : List Char → Bool
  | [] => pat.isEmpty
  | c :: cs => startsWithChars pat (c :: cs) || infixOfChars pat cs

/-- JS `s.includes(pat)`: substring containment. -/
def jsIncludes (s pat : String) : Bool := infixOfChars pat.data s.data

/-- JS `String.prototype.trim`: strip leading and trailing whitespace. -/
def jsTrim (s : String) : String :=
  ⟨((s.data.dropWhile Char.isWhitespace).reverse.dropWhile Char.isWhitespace).reverse⟩

/-- JS truthiness of a nullable string: `null`, `undefined` and `""` are falsy. -/
def truthy : Option String → Bool
  | none => false
  | some s => !s.isEmpty

/-- JS `a || d` on a nullable string with a string default. -/
def jsOr (a : Option String) (d : String) : String :=
  match a with
  | none => d
  | some s => if s.isEmpty then d else s

/-- The string value behind a truthy nullable field. -/
def optStr (a : Option String) : String := a.getD ""

/-- Record `DemoItem` from the source: optional (GraphQL-nullable) display fields. -/
structure DemoItem where
  id : String
  projectName : Option String
  githubLink : Option String
  projectLink : Option String
  imageUrl : Option String
  createdAt : String
  updatedAt : String
deriving DecidableEq

/-- Record `TagItem` from the source: a validated tag. -/
structure TagItem where
  id : String
  name : String
  color : String
deriving DecidableEq

/-- A raw tag record as delivered by a snapshot, before validation:
any field may be missing at runtime. -/
structure RawTag where
  id : Option String
  name : Option String
  color : Option String
deriving DecidableEq

/-- A raw `DemoTag` relationship record as delivered by a snapshot,
before validation: the references may be missing at runtime. -/
structure RawDemoTag where
  id : String
  demoId : Option String
  tagId : Option String
deriving DecidableEq

/-- Record `DemoTagItem` from the source: a relationship, optionally
enriched with its resolved tag. -/
structure DemoTagItem where
  id : String
  demoId : String
  tagId : String
  tag : Option TagItem
deriving DecidableEq

/-- The snapshot validation pass of the Tag subscription handler:
`items.filter(tag => tag && tag.id && tag.name)` (a null record has every
field absent, so the `tag &&` guard is subsumed by the field checks). -/
def validTagFilter (items : List RawTag) : List RawTag :=
  items.filter (fun tag => truthy tag.id && truthy tag.name)

/-- Function `getFilteredDemos` from the source, with the component state
(`demos`, `searchTerm`, `selectedFilterTags`, `demoTags`) passed
explicitly. -/
def getFilteredDemos (demos : List DemoItem) (searchTerm : String)
    (selectedFilterTags : List String) (demoTags : List DemoTagItem) :
    List DemoItem :=
  demos.filter (fun demo =>
    let matchesSearch := searchTerm.isEmpty ||
      (truthy demo.projectName &&
        jsIncludes (jsToLower (optStr demo.projectName)) (jsToLower searchTerm))
    let matchesTags := selectedFilterTags.length == 0 ||
      selectedFilterTags.all (fun filterTagId =>
        demoTags.any (fun dt => dt.demoId == demo.id && dt.tagId == filterTagId))
    matchesSearch && matchesTags)

/-- Function `handleFilterTagToggle` from the source, acting on the previous
selected-filter-tag list. -/
def handleFilterTagToggle (tagId : String) (prev : List String) : List String :=
  if prev.contains tagId then prev.filter (fun id => id != tagId)
  else prev ++ [tagId]

/-- The filter state: a search term and the selected filter tag ids. -/
structure FilterState where
  searchTerm : String
  selectedFilterTags : List String
deriving DecidableEq

/-- Function `clearAllFilters` from the source: reset the search term and the
selected tag set. -/
def clearAllFilters (_fs : FilterState) : FilterState :=
  { searchTerm := "", selectedFilterTags := [] }

/-- One step of the DemoTag subscription loop body: validate the raw
relationship, resolve its tag through `resolve` (the `Tag.get` point
lookup), and build the enriched item, or skip (`none`). -/
def enrichOne (resolve : String → Option RawTag) (item : RawDemoTag) :
    Option DemoTagItem :=
  if truthy item.tagId && truthy item.demoId then
    match resolve (optStr item.tagId) with
    | some td =>
        if truthy td.id && truthy td.name then
          some { id := item.id, demoId := optStr item.demoId,
                 tagId := optStr item.tagId,
                 tag := some { id := optStr td.id, name := jsOr td.name "",
                               color := jsOr td.color "#f89520" } }
        else none
    | none => none
  else none

/-- The DemoTag subscription `next` handler: the for-loop pushing the
enriched relationships in input order. -/
def demoTagSubscriptionNext (resolve : String → Option RawTag)
    (items : List RawDemoTag) : List DemoTagItem :=
  items.filterMap (enrichOne resolve)

/-- The exclusion condition as the spec enumerates it: the demo or tag
reference is absent, the resolver yields no record, or the resolved
record is missing its id or name. -/
def skipsEnrichment (resolve : String → Option RawTag) (item : RawDemoTag) :
    Bool :=
  !truthy item.demoId || !truthy item.tagId ||
    (match resolve (optStr item.tagId) with
     | none => true
     | some td => !truthy td.id || !truthy td.name)

/-- The enriched item built for a relationship that is not skipped,
paired with its resolved tag. -/
def enrichedOf (resolve : String → Option RawTag) (item : RawDemoTag) :
    DemoTagItem :=
  let td := (resolve (optStr item.tagId)).getD ⟨none, none, none⟩
  { id := item.id, demoId := optStr item.demoId, tagId := optStr item.tagId,
    tag := some { id := optStr td.id, name := jsOr td.name "",
                  color := jsOr td.color "#f89520" } }

/-- Constant `TAG_COLORS` from the source: the fixed ordered 10-color palette. -/
def TAG_COLORS : List String :=
  ["#e74c3c", "#3498db", "#2ecc71", "#9b59b6", "#f39c12",
   "#1abc9c", "#e67e22", "#34495e", "#27ae60", "#8e44ad"]

/-- Function `getNextAvailableColor` from the source. -/
def getNextAvailableColor (availableTags : List TagItem) : String :=
  let usedColors := availableTags.map (fun tag => tag.color)
  let availableColors := TAG_COLORS.filter (fun color => !usedColors.contains color)
  if availableColors.length > 0 then
    availableColors.headD (TAG_COLORS.get ⟨0, by decide⟩)
  else TAG_COLORS.get ⟨0, by decide⟩

/-- Outcome of `handleAddTag`: the tag sent to the backend on the happy
path, or `none` when the operation is rejected; `addTagError` is the
signal shown to the caller. -/
structure AddTagResult where
  created : Option TagItem
  addTagError : Bool
deriving DecidableEq

/-- Function `handleAddTag` from the source (happy backend path): reject an empty
trimmed name, reject a case-insensitive duplicate of an existing tag's
name, otherwise create the tag with the next available color. `freshId`
stands for the backend-assigned id. -/
def handleAddTag (newTagName : String) (availableTags : List TagItem)
    (freshId : String) : AddTagResult :=
  if (jsTrim newTagName).isEmpty then { created := none, addTagError := true }
  else if availableTags.any
      (fun tag => jsToLower tag.name == jsToLower (jsTrim newTagName)) then
    { created := none, addTagError := true }
  else
    { created := some { id := freshId, name := jsTrim newTagName,
                        color := getNextAvailableColor availableTags },
      addTagError := false }

/-- A persisted DemoTag relationship record (backend side). -/
structure StoredDemoTag where
  id : String
  demoId : String
  tagId : String
deriving DecidableEq

/-- The backend collections the admin mutations act on; `freshIds`
supplies the ids the backend assigns to created records. -/
structure BackendState where
  demos : List DemoItem
  demoTags : List StoredDemoTag
  freshIds : List String
deriving DecidableEq

/-- Backend call DemoTag delete: remove the relationship record with the
given record id. -/
def demoTagDelete (b : BackendState) (rid : String) : BackendState :=
  { b with demoTags := b.demoTags.filter (fun dt => dt.id != rid) }

/-- Backend call Demo delete: remove the demo record. -/
def demoDelete (b : BackendState) (id : String) : BackendState :=
  { b with demos := b.demos.filter (fun d => d.id != id) }

/-- Function `deleteDemo` from the source, on the confirmed happy path: list the
DemoTag records whose `demoId` equals the target, delete each, then
delete the demo record. -/
def deleteDemo (id : String) (b : BackendState) : BackendState :=
  let toDelete := b.demoTags.filter (fun dt => dt.demoId == id)
  let afterTags := toDelete.foldl (fun st dt => demoTagDelete st dt.id) b
  demoDelete afterTags id

/-- The demo form field contents. -/
structure FormData where
  projectName : String
  githubLink : String
  projectLink : String
  imageUrl : String
deriving DecidableEq

/-- The blank form the source resets to. -/
def emptyFormData : FormData :=
  { projectName := "", githubLink := "", projectLink := "", imageUrl := "" }

/-- The per-field error flags set by `validateForm`. -/
structure FormErrors where
  projectName : Bool
  githubLink : Bool
  projectLink : Bool
  imageUrl : Bool
  tags : Bool
deriving DecidableEq

/-- Function `validateForm` from the source: a field errs when its trimmed text
is empty; tags err when none is selected. -/
def validateFormErrors (fd : FormData) (selectedTags : List String) :
    FormErrors :=
  { projectName := (jsTrim fd.projectName).isEmpty,
    githubLink := (jsTrim fd.githubLink).isEmpty,
    projectLink := (jsTrim fd.projectLink).isEmpty,
    imageUrl := (jsTrim fd.imageUrl).isEmpty,
    tags := selectedTags.length == 0 }

/-- Aggregate check of `validateForm`: some field error flag is set. -/
def FormErrors.hasAny (e : FormErrors) : Bool :=
  e.projectName || e.githubLink || e.projectLink || e.imageUrl || e.tags

/-- The admin component state that `handleSubmit` reads and writes. -/
structure AdminState where
  modelExists : Bool
  isFormOpen : Bool
  editingId : Option String
  formData : FormData
  selectedTags : List String
  formErrors : FormErrors
  debugInfo : String
  backend : BackendState
deriving DecidableEq

/-- Backend call Demo update: overwrite the fields of the demo with the
given id. -/
def demoUpdate (b : BackendState) (id : String) (fd : FormData) :
    BackendState :=
  { b with demos := b.demos.map (fun d =>
      if d.id == id then
        { d with projectName := some fd.projectName,
                 githubLink := some fd.githubLink,
                 projectLink := some fd.projectLink,
                 imageUrl := some fd.imageUrl }
      else d) }

/-- Backend call Demo create: the backend assigns the next fresh id and
returns the created record. -/
def demoCreate (b : BackendState) (fd : FormData) : DemoItem × BackendState :=
  let id := b.freshIds.headD ""
  let d : DemoItem :=
    { id := id, projectName := some fd.projectName,
      githubLink := some fd.githubLink, projectLink := some fd.projectLink,
      imageUrl := some fd.imageUrl, createdAt := "", updatedAt := "" }
  (d, { b with demos := b.demos ++ [d], freshIds := b.freshIds.tail })

/-- Backend call DemoTag create: persist a new relationship record. -/
def demoTagCreate (b : BackendState) (demoId tagId : String) : BackendState :=
  let rid := b.freshIds.headD ""
  { b with demoTags := b.demoTags ++ [{ id := rid, demoId := demoId, tagId := tagId }],
           freshIds := b.freshIds.tail }

/-- What a run of `handleSubmit` did: blocked before the try block,
threw inside it (caught), or ran to completion. -/
inductive SubmitOutcome where
  | blockedNoModel
  | blockedValidation
  | failed
  | succeeded
deriving DecidableEq

/-- The catch block of `handleSubmit`: record the diagnostic string. -/
def catchSubmit (s : AdminState) (errMsg : String) : AdminState :=
  { s with debugInfo := "Error in form submit: " ++ errMsg }

/-- The relationship-deletion loop of the edit path. `failAt` injects a
thrown backend call by its index `k` in the submit's call sequence; on a
throw the backend state reached so far is returned. -/
def runDeletes (failAt : Option Nat) (k : Nat) (rids : List String)
    (b : BackendState) : Except BackendState (BackendState × Nat) :=
  match rids with
  | [] => Except.ok (b, k)
  | rid :: rest =>
      if failAt == some k then Except.error b
      else runDeletes failAt (k + 1) rest (demoTagDelete b rid)

/-- The relationship-creation loop over the selected tags. -/
def runCreates (failAt : Option Nat) (k : Nat) (demoId : String)
    (tags : List String) (b : BackendState) :
    Except BackendState (BackendState × Nat) :=
  match tags with
  | [] => Except.ok (b, k)
  | tagId :: rest =>
      if failAt == some k then Except.error b
      else runCreates failAt (k + 1) demoId rest (demoTagCreate b demoId tagId)

/-- Function `handleSubmit` from the source, as a state transformer. Backend calls
are numbered in execution order; `failAt = some k` makes call `k` throw
with message `errMsg`, modelling a mutation failure caught by the
handler's catch block. React state setters commit immediately in this
sequential model, matching the committed state after the handler runs. -/
def handleSubmit (failAt : Option Nat) (errMsg : String) (s : AdminState) :
    AdminState × SubmitOutcome :=
  if !s.modelExists then
    ({ s with debugInfo := "Cannot submit: Demo model is not available in the backend yet." },
     SubmitOutcome.blockedNoModel)
  else
    let errors := validateFormErrors s.formData s.selectedTags
    let s1 : AdminState := { s with formErrors := errors }
    if errors.hasAny then (s1, SubmitOutcome.blockedValidation)
    else
      match s1.editingId with
      | some eid =>
          if failAt == some 0 then (catchSubmit s1 errMsg, SubmitOutcome.failed)
          else
            let s2 : AdminState := { s1 with backend := demoUpdate s1.backend eid s1.formData }
            if failAt == some 1 then (catchSubmit s2 errMsg, SubmitOutcome.failed)
            else
              let toDelete := s2.backend.demoTags.filter (fun dt => dt.demoId == eid)
              match runDeletes failAt 2 (toDelete.map (fun dt => dt.id)) s2.backend with
              | Except.error b => (catchSubmit { s2 with backend := b } errMsg, SubmitOutcome.failed)
              | Except.ok (b, k) =>
                  let s3 : AdminState := { s2 with backend := b, editingId := none }
                  match runCreates failAt k eid s3.selectedTags s3.backend with
                  | Except.error b2 =>
                      (catchSubmit { s3 with backend := b2 } errMsg, SubmitOutcome.failed)
                  | Except.ok (b2, _) =>
                      ({ s3 with backend := b2, formData := emptyFormData,
                                 selectedTags := [], isFormOpen := false },
                       SubmitOutcome.succeeded)
      | none =>
          if failAt == some 0 then (catchSubmit s1 errMsg, SubmitOutcome.failed)
          else
            let created := demoCreate s1.backend s1.formData
            let s2 : AdminState := { s1 with backend := created.2 }
            match runCreates failAt 1 created.1.id s2.selectedTags s2.backend with
            | Except.error b2 =>
                (catchSubmit { s2 with backend := b2 } errMsg, SubmitOutcome.failed)
            | Except.ok (b2, _) =>
                ({ s2 with backend := b2, formData := emptyFormData,
                           selectedTags := [], isFormOpen := false },
                 SubmitOutcome.succeeded)

/-! ## Example data used by concrete instances -/

/-- Demo "Alpha" with id `d1` (spec example). -/
def demoAlpha : DemoItem :=
  { id := "d1", projectName := some "Alpha", githubLink := none,
    projectLink := none, imageUrl := none, createdAt := "", updatedAt := "" }

/-- Demo "Beta" with id `d2` (spec example). -/
def demoBeta : DemoItem :=
  { id := "d2", projectName := some "Beta", githubLink := none,
    projectLink := none, imageUrl := none, createdAt := "", updatedAt := "" }

/-- The spec's example relationships: d1-tagA, d1-tagB, d2-tagA. -/
def exampleDemoTags : List DemoTagItem :=
  [{ id := "r1", demoId := "d1", tagId := "tagA", tag := none },
   { id := "r2", demoId := "d1", tagId := "tagB", tag := none },
   { id := "r3", demoId := "d2", tagId := "tagA", tag := none }]

/-- Three tags using the first three palette colors. -/
def threePaletteTags : List TagItem :=
  [{ id := "t0", name := "Games", color := "#e74c3c" },
   { id := "t1", name := "ML", color := "#3498db" },
   { id := "t2", name := "Analytics", color := "#2ecc71" }]

/-- Ten tags jointly using every palette color. -/
def allPaletteTags : List TagItem :=
  TAG_COLORS.map (fun c => { id := c, name := c, color := c })

/-- A backend with a demo `d1` carrying two relationships and a demo `d2`
carrying one. -/
def c4Backend : BackendState :=
  { demos := [demoAlpha, demoBeta],
    demoTags := [{ id := "r1", demoId := "d1", tagId := "t1" },
                 { id := "r2", demoId := "d1", tagId := "t2" },
                 { id := "r3", demoId := "d2", tagId := "t1" }],
    freshIds := [] }

/-! ## Helper lemmas -/

/-- Lemma: `enrichOne` skips exactly under the spec's exclusion condition and
otherwise builds the enriched item of `enrichedOf`. -/
lemma enrichOne_eq_ite (resolve : String → Option RawTag) (item : RawDemoTag) :
    enrichOne resolve item =
      if skipsEnrichment resolve item then none
      else some (enrichedOf resolve item) := by
  unfold enrichOne skipsEnrichment enrichedOf
  cases hd : truthy item.demoId <;> cases ht : truthy item.tagId <;> simp
  cases hr : resolve (optStr item.tagId) with
  | none => simp
  | some td => cases hi : truthy td.id <;> cases hn : truthy td.name <;> simp [hi, hn]

/-- Lemma: `filterMap` of a guarded map is a filter followed by a map. -/
lemma filterMap_ite_eq_filter_map {α β : Type} (p : α → Bool) (f : α → β)
    (l : List α) :
    l.filterMap (fun a => if p a then none else some (f a)) =
      (l.filter (fun a => !p a)).map f := by
  induction l with
  | nil => rfl
  | cons a l ih => by_cases h : p a <;> simp [h, ih]

/-- Surviving the relationship-deletion fold means having been in the
original collection with an id different from every deleted id. -/
lemma mem_foldl_demoTagDelete :
    ∀ (ds : List StoredDemoTag) (b : BackendState) (x : StoredDemoTag),
      x ∈ (ds.foldl (fun st dt => demoTagDelete st dt.id) b).demoTags →
      x ∈ b.demoTags ∧ ∀ dt ∈ ds, x.id ≠ dt.id := by
  intro ds
  induction ds with
  | nil => intro b x hx; simpa using hx
  | cons d ds ih =>
      intro b x hx
      obtain ⟨h1, h2⟩ := ih (demoTagDelete b d.id) x (by simpa using hx)
      have h1' : x ∈ b.demoTags ∧ x.id ≠ d.id := by
        simpa [demoTagDelete] using h1
      refine ⟨h1'.1, ?_⟩
      intro dt hdt
      rcases List.mem_cons.mp hdt with rfl | hmem
      · exact h1'.2
      · exact h2 dt hmem

/-! ## Claim theorems -/

/-- C2: the enrichment pass excludes a relationship exactly when its demo
or tag reference is absent, the resolver yields no record, or the record
is missing its id or name; every other relationship appears paired with
its resolved tag. In particular a relationship to a missing tag "missing"
yields an empty enriched output. -/
theorem demoTagSubscription_enrichment_spec :
    (∀ (resolve : String → Option RawTag) (items : List RawDemoTag),
        demoTagSubscriptionNext resolve items =
          (items.filter (fun item => !skipsEnrichment resolve item)).map
            (enrichedOf resolve)) ∧
    demoTagSubscriptionNext (fun _ => none)
      [{ id := "r1", demoId := some "d1", tagId := some "missing" }] = [] := by
  refine ⟨?_, by decide⟩
  intro resolve items
  rw [demoTagSubscriptionNext,
      show enrichOne resolve = fun item =>
        if skipsEnrichment resolve item then none
        else some (enrichedOf resolve item) from funext (enrichOne_eq_ite resolve),
      filterMap_ite_eq_filter_map]

/-- C3: `getNextAvailableColor` returns the first palette entry not used
by any existing tag, and the first palette entry when all ten are used;
with palette colors 0–2 used it returns entry 3, with all used, entry 0. -/
theorem getNextAvailableColor_spec :
    (∀ tags : List TagItem,
        getNextAvailableColor tags =
          (TAG_COLORS.filter
              (fun color => !(tags.map (fun tag => tag.color)).contains color)).headD
            (TAG_COLORS.get ⟨0, by decide⟩)) ∧
    getNextAvailableColor threePaletteTags = TAG_COLORS.get ⟨3, by decide⟩ ∧
    getNextAvailableColor allPaletteTags = TAG_COLORS.get ⟨0, by decide⟩ := by
  refine ⟨fun tags => ?_, by decide, by decide⟩
  simp only [getNextAvailableColor]
  cases h : TAG_COLORS.filter
      (fun color => !(tags.map (fun tag => tag.color)).contains color) with
  | nil => simp [h]
  | cons c cs => simp [h]

/-- C4: after `deleteDemo` completes, no DemoTag record referencing the
target demo id remains; for a demo with two relationships, both go. -/
theorem deleteDemo_cascade_spec :
    (∀ (id : String) (b : BackendState) (dt : StoredDemoTag),
        dt ∈ (deleteDemo id b).demoTags → dt.demoId ≠ id) ∧
    deleteDemo "d1" c4Backend =
      { demos := [demoBeta],
        demoTags := [{ id := "r3", demoId := "d2", tagId := "t1" }],
        freshIds := [] } := by
  refine ⟨?_, by decide⟩
  intro id b dt hdt heq
  have hmem : dt ∈ ((b.demoTags.filter (fun dt => dt.demoId == id)).foldl
      (fun st dt => demoTagDelete st dt.id) b).demoTags := by
    simpa [deleteDemo, demoDelete] using hdt
  obtain ⟨h1, h2⟩ := mem_foldl_demoTagDelete _ b dt hmem
  exact h2 dt (List.mem_filter.mpr ⟨h1, by simp [heq]⟩) rfl

/-- C4 witness: the surviving record of the concrete run does not
reference the deleted demo. -/
theorem deleteDemo_cascade_spec_witness :
    ({ id := "r3", demoId := "d2", tagId := "t1" } : StoredDemoTag).demoId ≠ "d1" :=
  deleteDemo_cascade_spec.1 "d1" c4Backend
    { id := "r3", demoId := "d2", tagId := "t1" } (by decide)

/-- C5: a proposed tag name matching an existing tag's name
case-insensitively (after trimming the proposal) is rejected: nothing is
created and the error flag signals the caller; in particular " Games "
against an existing "Games". -/
theorem handleAddTag_duplicate_rejected :
    (∀ (newTagName : String) (tags : List TagItem) (freshId : String),
        (∃ tag ∈ tags, jsToLower tag.name = jsToLower (jsTrim newTagName)) →
        handleAddTag newTagName tags freshId =
          { created := none, addTagError := true }) ∧
    handleAddTag " Games " [{ id := "t1", name := "Games", color := "#e74c3c" }] "t9" =
      { created := none, addTagError := true } := by
  refine ⟨?_, by decide⟩
  rintro n tags fid ⟨tag, htag, heq⟩
  have hany : tags.any (fun tag => jsToLower tag.name == jsToLower (jsTrim n)) = true :=
    List.any_eq_true.mpr ⟨tag, htag, by simp [heq]⟩
  by_cases he : (jsTrim n).isEmpty
  · simp [handleAddTag, he]
  · simp [handleAddTag, he, hany]

/-- C5 witness: a lowercase duplicate proposal is rejected, via the
general theorem at a concrete input. -/
theorem handleAddTag_duplicate_rejected_witness :
    handleAddTag "games" [{ id := "t1", name := "Games", color := "#e74c3c" }] "t2" =
      { created := none, addTagError := true } :=
  handleAddTag_duplicate_rejected.1 "games"
    [{ id := "t1", name := "Games", color := "#e74c3c" }] "t2"
    ⟨{ id := "t1", name := "Games", color := "#e74c3c" }, by decide, by decide⟩

/-- C6: the projection is a sublist of the input demo sequence — it never
reorders, duplicates or re-sorts the demos that pass. -/
theorem getFilteredDemos_sublist :
    ∀ (demos : List DemoItem) (searchTerm : String) (sel : List String)
      (dts : List DemoTagItem),
      (getFilteredDemos demos searchTerm sel dts).Sublist demos :=
  fun demos _ _ _ => List.filter_sublist demos

/-- C8: the snapshot validation filter is idempotent. -/
theorem validTagFilter_idempotent :
    ∀ items : List RawTag, validTagFilter (validTagFilter items) = validTagFilter items := by
  intro items
  simp [validTagFilter, List.filter_filter]

/-- C9: toggling a filter tag flips exactly its membership (removed when
present, appended when absent, all other ids unchanged), and toggling
twice restores the original membership. -/
theorem handleFilterTagToggle_membership_spec :
    ∀ (prev : List String) (t : String),
      (t ∈ prev → t ∉ handleFilterTagToggle t prev) ∧
      (t ∉ prev → handleFilterTagToggle t prev = prev ++ [t]) ∧
      (∀ x, x ≠ t → (x ∈ handleFilterTagToggle t prev ↔ x ∈ prev)) ∧
      (∀ x, x ∈ handleFilterTagToggle t (handleFilterTagToggle t prev) ↔ x ∈ prev) := by
  intro prev t
  by_cases h : t ∈ prev
  · refine ⟨fun _ => ?_, fun h' => absurd h h', fun x hx => ?_, fun x => ?_⟩
    · simp [handleFilterTagToggle, h]
    · simp [handleFilterTagToggle, h, hx]
    · simp [handleFilterTagToggle, h]
      constructor
      · rintro (⟨hx, _⟩ | rfl)
        · exact hx
        · exact h
      · intro hx
        by_cases hxt : x = t
        · exact Or.inr hxt
        · exact Or.inl ⟨hx, hxt⟩
  · refine ⟨fun h' => absurd h' h, fun _ => ?_, fun x hx => ?_, fun x => ?_⟩
    · simp [handleFilterTagToggle, h]
    · simp [handleFilterTagToggle, h, hx]
    · simp [handleFilterTagToggle, h]
      intro hx hxt
      exact h (hxt ▸ hx)

/-- C9 witness: concrete instances of the removal and append cases. -/
theorem handleFilterTagToggle_membership_spec_witness :
    (("a" : String) ∉ handleFilterTagToggle "a" ["a", "b"]) ∧
    handleFilterTagToggle "c" ["a", "b"] = ["a", "b", "c"] :=
  ⟨(handleFilterTagToggle_membership_spec ["a", "b"] "a").1 (by decide),
   (handleFilterTagToggle_membership_spec ["a", "b"] "c").2.1 (by decide)⟩

/-- C10: with the filter state produced by `clearAllFilters`, the
projection returns the whole demo sequence unchanged. -/
theorem clearAllFilters_projection_identity :
    ∀ (demos : List DemoItem) (dts : List DemoTagItem) (fs : FilterState),
      getFilteredDemos demos (clearAllFilters fs).searchTerm
        (clearAllFilters fs).selectedFilterTags dts = demos := by
  intro demos dts fs
  exact List.filter_eq_self.mpr (fun a _ => rfl)

/-- A string is empty exactly when its character list is. -/
lemma string_eq_empty_iff_data (s : String) : s = "" ↔ s.data = [] := by
  constructor
  · intro h; subst h; rfl
  · intro h
    cases s with
    | mk l => cases h; rfl

/-- Searching a nonempty term inside an empty (lowercased) name fails. -/
lemma jsIncludes_lower_empty (st : String) (hst : st ≠ "") :
    jsIncludes (jsToLower "") (jsToLower st) = false := by
  have hdata : (jsToLower st).data = st.data.map Char.toLower := rfl
  cases hd : (jsToLower st).data with
  | nil =>
      exfalso
      rw [hdata, List.map_eq_nil_iff] at hd
      exact hst ((string_eq_empty_iff_data st).mpr hd)
  | cons c cs =>
      show infixOfChars (jsToLower st).data [] = false
      rw [hd]
      rfl

/-- The search-term conjunct of the projector's predicate, characterized
as the spec states it: empty term, or existing name containing the term
case-insensitively. -/
lemma matchesSearch_iff (p : Option String) (st : String) :
    (st.isEmpty || (truthy p && jsIncludes (jsToLower (optStr p)) (jsToLower st))) = true ↔
    (st = "" ∨ ∃ n, p = some n ∧ jsIncludes (jsToLower n) (jsToLower st) = true) := by
  simp only [Bool.or_eq_true, Bool.and_eq_true, String.isEmpty_iff]
  by_cases hst : st = ""
  · simp [hst]
  · simp only [hst, false_or]
    cases p with
    | none => simp [truthy]
    | some n =>
        simp only [truthy, optStr, Option.getD_some, Option.some.injEq]
        constructor
        · rintro ⟨-, h2⟩
          exact ⟨n, rfl, h2⟩
        · rintro ⟨n', hn, h2⟩
          subst hn
          refine ⟨?_, h2⟩
          cases hn0 : n.isEmpty
          · rfl
          · exfalso
            have hne : n = "" := (String.isEmpty_iff n).mp hn0
            subst hne
            rw [jsIncludes_lower_empty st hst] at h2
            cases h2

/-- The tag conjunct of the projector's predicate, characterized as the
conjunctive requirement over the selected tag ids. -/
lemma matchesTags_iff (demoId : String) (sel : List String)
    (dts : List DemoTagItem) :
    ((sel.length == 0) ||
      sel.all (fun ftid =>
        dts.any (fun dt => dt.demoId == demoId && dt.tagId == ftid))) = true ↔
    (∀ tagId ∈ sel, ∃ dt ∈ dts, dt.demoId = demoId ∧ dt.tagId = tagId) := by
  simp only [Bool.or_eq_true, beq_iff_eq, List.length_eq_zero, List.all_eq_true,
    List.any_eq_true, Bool.and_eq_true]
  constructor
  · rintro (rfl | h)
    · intro tagId htag
      cases htag
    · exact h
  · exact Or.inr

/-- C1: a demo of the input passes the projection iff the search term is
empty or its name exists and contains the term case-insensitively, and it
carries every selected tag; the spec's Alpha/Beta example projects to
exactly `[demoAlpha]`. -/
theorem getFilteredDemos_membership_spec :
    (∀ (demos : List DemoItem) (searchTerm : String) (sel : List String)
        (dts : List DemoTagItem) (demo : DemoItem),
        demo ∈ getFilteredDemos demos searchTerm sel dts ↔
          demo ∈ demos ∧
          (searchTerm = "" ∨ ∃ n, demo.projectName = some n ∧
             jsIncludes (jsToLower n) (jsToLower searchTerm) = true) ∧
          (∀ tagId ∈ sel, ∃ dt ∈ dts, dt.demoId = demo.id ∧ dt.tagId = tagId)) ∧
    getFilteredDemos [demoAlpha, demoBeta] "" ["tagA", "tagB"] exampleDemoTags =
      [demoAlpha] := by
  refine ⟨?_, by decide⟩
  intro demos st sel dts demo
  simp only [getFilteredDemos, List.mem_filter]
  rw [Bool.and_eq_true, matchesSearch_iff, matchesTags_iff]

/-- C1 witness: the Alpha demo passes the projection with no search term
and no selected tags, via the general characterization. -/
theorem getFilteredDemos_membership_spec_witness :
    demoAlpha ∈ getFilteredDemos [demoAlpha, demoBeta] "" [] exampleDemoTags :=
  (getFilteredDemos_membership_spec.1 [demoAlpha, demoBeta] "" [] exampleDemoTags
    demoAlpha).mpr ⟨by decide, Or.inl rfl, by decide⟩

/-- An admin state mid-edit of demo `d1`: the form is open with valid
contents and one selected tag, and the backend holds no relationship for
`d1` yet. -/
def c7EditState : AdminState :=
  { modelExists := true, isFormOpen := true, editingId := some "d1",
    formData := { projectName := "Alpha", githubLink := "g",
                  projectLink := "p", imageUrl := "i" },
    selectedTags := ["t1"],
    formErrors := { projectName := false, githubLink := false,
                    projectLink := false, imageUrl := false, tags := false },
    debugInfo := "",
    backend := { demos := [demoAlpha], demoTags := [], freshIds := ["r9"] } }

/-- C7 counterexample: submitting the edit of `d1` and failing at the
relationship-recreation call (call index 2) leaves the form open but with
`editingId` cleared — the state is OpenForCreate, not OpenForEdit "d1" as
the claim requires. -/
theorem handleSubmit_edit_failure_clears_editingId :
    (handleSubmit (some 2) "boom" c7EditState).2 = SubmitOutcome.failed ∧
    c7EditState.editingId = some "d1" ∧
    c7EditState.isFormOpen = true ∧
    (handleSubmit (some 2) "boom" c7EditState).1.isFormOpen = true ∧
    (handleSubmit (some 2) "boom" c7EditState).1.editingId = none := by
  decide

/-- Lemma: the demo-update call leaves the relationship collection
untouched. -/
lemma demoUpdate_demoTags (b : BackendState) (id : String) (fd : FormData) :
    (demoUpdate b id fd).demoTags = b.demoTags := rfl

/-- Lemma: a successful deletion loop consumes one call index per
relationship record. -/
lemma runDeletes_ok_length (failAt : Option Nat) :
    ∀ (rids : List String) (k0 : Nat) (b b' : BackendState) (k1 : Nat),
      runDeletes failAt k0 rids b = Except.ok (b', k1) →
      k1 = k0 + rids.length := by
  intro rids
  induction rids with
  | nil =>
      intro k0 b b' k1 h
      simp [runDeletes] at h
      obtain ⟨-, h2⟩ := h
      simp only [List.length_nil]
      omega
  | cons rid rest ih =>
      intro k0 b b' k1 h
      rw [runDeletes] at h
      split at h
      · simp at h
      · have := ih (k0 + 1) (demoTagDelete b rid) b' k1 h
        simp only [List.length_cons]
        omega

/-- Lemma: a deletion loop that throws was injected to fail at one of its
own call indices. -/
lemma runDeletes_error_exists (failAt : Option Nat) :
    ∀ (rids : List String) (k0 : Nat) (b b' : BackendState),
      runDeletes failAt k0 rids b = Except.error b' →
      ∃ j, j < rids.length ∧ failAt = some (k0 + j) := by
  intro rids
  induction rids with
  | nil => intro k0 b b' h; simp [runDeletes] at h
  | cons rid rest ih =>
      intro k0 b b' h
      rw [runDeletes] at h
      split at h
      next hf =>
        refine ⟨0, by simp, ?_⟩
        simpa using hf
      next hf =>
        obtain ⟨j, hj, hfa⟩ := ih (k0 + 1) (demoTagDelete b rid) b' h
        refine ⟨j + 1, by simpa using Nat.succ_lt_succ hj, ?_⟩
        rw [hfa]
        congr 1
        omega

/-- Lemma: a creation loop that throws was injected to fail at one of its
own call indices. -/
lemma runCreates_error_exists (failAt : Option Nat) :
    ∀ (tags : List String) (k0 : Nat) (demoId : String) (b b' : BackendState),
      runCreates failAt k0 demoId tags b = Except.error b' →
      ∃ j, j < tags.length ∧ failAt = some (k0 + j) := by
  intro tags
  induction tags with
  | nil => intro k0 demoId b b' h; simp [runCreates] at h
  | cons tagId rest ih =>
      intro k0 demoId b b' h
      rw [runCreates] at h
      split at h
      next hf =>
        refine ⟨0, by simp, ?_⟩
        simpa using hf
      next hf =>
        obtain ⟨j, hj, hfa⟩ := ih (k0 + 1) demoId (demoTagCreate b demoId tagId) b' h
        refine ⟨j + 1, by simpa using Nat.succ_lt_succ hj, ?_⟩
        rw [hfa]
        congr 1
        omega

/-- C7 (amended): when `handleSubmit` fails after its preconditions pass,
the form stays open with the diagnostic recorded and the field contents
and selected tags preserved; in create mode the editing id stays `none`;
in edit mode the editing id is preserved exactly when the failing backend
call index is below `2 + n` (the update, list, and the deletions of the
`n` existing relationships of the edited demo) and cleared when the
failure occurs in the relationship-recreation phase (index `2 + n` or
beyond), because the editing id is cleared before the creation loop. -/
theorem handleSubmit_failure_preserves_form :
    ∀ (failAt : Option Nat) (errMsg : String) (s r : AdminState),
      handleSubmit failAt errMsg s = (r, SubmitOutcome.failed) →
      (r.isFormOpen = s.isFormOpen ∧ r.formData = s.formData ∧
       r.selectedTags = s.selectedTags ∧
       r.debugInfo = "Error in form submit: " ++ errMsg ∧
       (s.editingId = none → r.editingId = none) ∧
       (r.editingId = s.editingId ∨ r.editingId = none) ∧
       (∀ k, failAt = some k →
          (k < 2 + (s.backend.demoTags.filter
              (fun dt => dt.demoId == optStr s.editingId)).length →
            r.editingId = s.editingId) ∧
          (2 + (s.backend.demoTags.filter
              (fun dt => dt.demoId == optStr s.editingId)).length ≤ k →
            r.editingId = none))) := by
  intro failAt errMsg s r h
  simp only [handleSubmit, catchSubmit] at h
  split at h
  · simp at h
  · split at h
    · simp at h
    · split at h
      next eid heid =>
        split at h
        next h0 =>
          injection h with h1 h2
          subst h1
          have hf : failAt = some 0 := by simpa using h0
          refine ⟨rfl, rfl, rfl, rfl, fun hn => hn, Or.inl rfl, ?_⟩
          intro k hk
          rw [hf] at hk
          injection hk with hk
          subst hk
          exact ⟨fun _ => rfl, fun hle => by exfalso; omega⟩
        next h0 =>
          split at h
          next h1f =>
            injection h with h1 h2
            subst h1
            have hf : failAt = some 1 := by simpa using h1f
            refine ⟨rfl, rfl, rfl, rfl, fun hn => hn, Or.inl rfl, ?_⟩
            intro k hk
            rw [hf] at hk
            injection hk with hk
            subst hk
            exact ⟨fun _ => rfl, fun hle => by exfalso; omega⟩
          next h1f =>
            split at h
            next b hd =>
              injection h with h1 h2
              subst h1
              obtain ⟨j, hj, hfa⟩ := runDeletes_error_exists failAt _ 2 _ b hd
              refine ⟨rfl, rfl, rfl, rfl, fun hn => hn, Or.inl rfl, ?_⟩
              intro k hk
              rw [hfa] at hk
              injection hk with hk
              subst hk
              have hjlen : j < (s.backend.demoTags.filter
                  (fun dt => dt.demoId == eid)).length := by
                simpa [demoUpdate_demoTags] using hj
              rw [heid]
              simp only [optStr, Option.getD_some]
              exact ⟨fun _ => trivial, fun hle => by exfalso; omega⟩
            next b k' hok =>
              split at h
              next b2 hcr =>
                injection h with h1 h2
                subst h1
                have hk' := runDeletes_ok_length failAt _ 2 _ b k' hok
                obtain ⟨j, hj, hfa⟩ := runCreates_error_exists failAt _ k' _ _ b2 hcr
                refine ⟨rfl, rfl, rfl, rfl, fun _ => rfl, Or.inr rfl, ?_⟩
                intro k hk
                rw [hfa] at hk
                injection hk with hk
                subst hk
                have hlen : k' = 2 + (s.backend.demoTags.filter
                    (fun dt => dt.demoId == eid)).length := by
                  simpa [demoUpdate_demoTags] using hk'
                rw [heid]
                simp only [optStr, Option.getD_some]
                exact ⟨fun hlt => by exfalso; omega, fun _ => trivial⟩
              next b2 k2 hcr =>
                simp at h
      next heid =>
        split at h
        next h0 =>
          injection h with h1 h2
          subst h1
          exact ⟨rfl, rfl, rfl, rfl, fun hn => hn, Or.inl rfl,
            fun k hk => ⟨fun _ => rfl, fun _ => heid⟩⟩
        next h0 =>
          split at h
          next b2 hcr =>
            injection h with h1 h2
            subst h1
            exact ⟨rfl, rfl, rfl, rfl, fun hn => hn, Or.inl rfl,
              fun k hk => ⟨fun _ => rfl, fun _ => heid⟩⟩
          next b2 k2 hcr =>
            simp at h

/-- C7 witness: a concrete failing run (edit of `d1` failing at the very
first backend call) through the amended theorem. -/
theorem handleSubmit_failure_preserves_form_witness :
    ((handleSubmit (some 0) "boom" c7EditState).1.isFormOpen = c7EditState.isFormOpen ∧
     (handleSubmit (some 0) "boom" c7EditState).1.formData = c7EditState.formData ∧
     (handleSubmit (some 0) "boom" c7EditState).1.selectedTags = c7EditState.selectedTags ∧
     (handleSubmit (some 0) "boom" c7EditState).1.debugInfo = "Error in form submit: " ++ "boom" ∧
     (c7EditState.editingId = none →
       (handleSubmit (some 0) "boom" c7EditState).1.editingId = none) ∧
     ((handleSubmit (some 0) "boom" c7EditState).1.editingId = c7EditState.editingId ∨
      (handleSubmit (some 0) "boom" c7EditState).1.editingId = none) ∧
     (∀ k, (some 0 : Option Nat) = some k →
        (k < 2 + (c7EditState.backend.demoTags.filter
            (fun dt => dt.demoId == optStr c7EditState.editingId)).length →
          (handleSubmit (some 0) "boom" c7EditState).1.editingId = c7EditState.editingId) ∧
        (2 + (c7EditState.backend.demoTags.filter
            (fun dt => dt.demoId == optStr c7EditState.editingId)).length ≤ k →
          (handleSubmit (some 0) "boom" c7EditState).1.editingId = none))) :=
  handleSubmit_failure_preserves_form (some 0) "boom" c7EditState
    (handleSubmit (some 0) "boom" c7EditState).1 (by decide)
